import Mathlib

/-!
Shallow embedding of `contracts/ibc-reflect-send/src/contract.rs` (cosmwasm),
the cross-chain account-relay contract: channel handshake validation,
per-channel account registry, packet dispatch and acknowledgement handling.

Modelling conventions:
* Storage (the `accounts` Bucket keyed by the channel id bytes) is a total
  function `String → Option AccountData`; `load` fails with `NotFound` on an
  absent key, `save`/`remove`/`update` mirror the cosmwasm Bucket contract.
* An entry point that can mutate storage returns
  `Except StdError (Registry × Response)`; returning `.error` models the
  host rolling back every mutation of the failed invocation, so an errored
  call leaves the registry unchanged by construction.
* `StdError::generic_err(msg)` is `StdError.GenericErr msg` with the exact
  message string of the source; the spec's symbolic error names
  (EmptyFunds, RemoteAddressChanged, ...) are definitions equal to the
  concrete errors the code produces.
* Application messages (`CosmosMsg`) are opaque payloads; packet data is
  kept as the structured `PacketMsg` instead of serialized bytes
  (`to_binary` is injective and never fails on these values).
* Block time is a `Nat`; u64 overflow of `env.block.time + PACKET_LIFETIME`
  would trap in the checked build and cannot occur for realistic times.
-/

namespace IbcReflectSend

/-- Human-readable address (`HumanAddr` in cosmwasm). -/
abbrev HumanAddr := String

/-- Opaque application message forwarded through `Dispatch` packets; the
contract never inspects it. -/
abbrev CosmosMsg := String

/-- A coin: denomination and amount (`Coin` with a u128 amount). -/
structure Coin where
  denom : String
  amount : Nat
deriving DecidableEq, Repr

/-- Per-channel account record. Field names and uses are taken from
`contract.rs`; `state.rs` is not in the tree, so the field types follow the
spec data model (§3). -/
structure AccountData where
  remote_addr : Option HumanAddr
  remote_balance : List Coin
  last_update_time : Nat
deriving DecidableEq, Repr

/-- Modelled from the spec: `state.rs` (holding `#[derive(Default)]` for
`AccountData`) is missing from the tree; §4.1 of the spec fixes the fresh
record inserted on connect to `remote_addr=None, remote_balance=[],
last_update_time=0`, which is also what Rust's derived `Default` yields. -/
def AccountData.default : AccountData :=
  { remote_addr := none, remote_balance := [], last_update_time := 0 }

/-- Errors, mirroring the `StdError` variants the contract produces:
`NotFound` from a Bucket `load` miss, `GenericErr` from
`StdError::generic_err`. -/
inductive StdError where
  | NotFound (kind : String)
  | GenericErr (msg : String)
deriving DecidableEq, Repr

abbrev StdResult (α : Type) := Except StdError α

/-- The account registry: `accounts` Bucket state, keyed by channel id. -/
abbrev Registry := String → Option AccountData

/-- Bucket `save`. -/
def save (reg : Registry) (k : String) (v : AccountData) : Registry :=
  fun x => if x = k then some v else reg x

/-- Bucket `remove`. -/
def remove (reg : Registry) (k : String) : Registry :=
  fun x => if x = k then none else reg x

/-- Bucket `load`: fails with `StdError::NotFound` when the key is absent. -/
def load (reg : Registry) (k : String) : StdResult AccountData :=
  match reg k with
  | some v => .ok v
  | none => .error (.NotFound "AccountData")

/-- Bucket `update`: feeds the current (optional) value to the action and
saves the action's result, propagating its error. -/
def update (reg : Registry) (k : String)
    (action : Option AccountData → StdResult AccountData) :
    StdResult Registry :=
  match action (reg k) with
  | .ok v => .ok (save reg k v)
  | .error e => .error e

/-- Protocol version string. -/
def IBC_VERSION : String := "ibc-reflect"

/-- Packets live one hour. -/
def PACKET_LIFETIME : Nat := 60 * 60

/-- Spec taxonomy `Unauthorized` for `send_msgs` / `check_remote_balance`. -/
def unauthorizedSendErr : StdError :=
  .GenericErr "Only admin may send messages"

/-- Spec taxonomy `Unauthorized` for `update_admin`. -/
def unauthorizedAdminErr : StdError :=
  .GenericErr "Only admin may set new admin"

/-- Spec taxonomy `NotFound`: a Bucket `load` miss on the registry. -/
def notFoundErr : StdError := .NotFound "AccountData"

/-- Spec taxonomy `EmptyFunds`. -/
def emptyFundsErr : StdError :=
  .GenericErr "you must send the coins you with to ibc transfer"

/-- Spec taxonomy `MultipleDenominations`. -/
def multipleDenominationsErr : StdError :=
  .GenericErr "you can only ibc transfer one coin"

/-- Spec taxonomy `RemoteAddressUnknown`. -/
def remoteAddressUnknownErr : StdError :=
  .GenericErr "We don't have the remote address for this channel"

/-- Spec taxonomy `InconsistentState`: an acknowledgement for a channel with
no registry entry. -/
def inconsistentStateErr : StdError :=
  .GenericErr "no account to update"

/-- Spec taxonomy `RemoteAddressChanged`. -/
def remoteAddressChangedErr (old new : String) : StdError :=
  .GenericErr ("remote account changed from " ++ old ++ " to " ++ new)

/-- Spec taxonomy `OrderMismatch`. -/
def orderMismatchErr : StdError :=
  .GenericErr "Only supports ordered channels"

/-- Spec taxonomy `VersionMismatch` (proposed version). -/
def versionMismatchErr : StdError :=
  .GenericErr ("Must set version to `" ++ IBC_VERSION ++ "`")

/-- Spec taxonomy `VersionMismatch` (counterparty version). -/
def counterpartyVersionMismatchErr : StdError :=
  .GenericErr ("Counterparty version must be `" ++ IBC_VERSION ++ "`")

/-- Outgoing packet payload. -/
inductive PacketMsg where
  | Dispatch (msgs : List CosmosMsg)
  | WhoAmI
  | Balances
deriving DecidableEq, Repr

/-- The IBC messages this contract emits. `timeout_block` is modelled as
`Option Nat` (the contract only ever passes `None`). -/
inductive IbcMsg where
  | SendPacket (channel_id : String) (data : PacketMsg)
      (timeout_block : Option Nat) (timeout_timestamp : Option Nat)
  | Transfer (channel_id : String) (to_address : HumanAddr) (amount : Coin)
      (timeout_block : Option Nat) (timeout_timestamp : Option Nat)
deriving DecidableEq, Repr

structure HandleResponse where
  messages : List IbcMsg
  attributes : List (String × String)
  data : Option String
deriving DecidableEq, Repr

structure IbcBasicResponse where
  messages : List IbcMsg
  attributes : List (String × String)
deriving DecidableEq, Repr

/-- `env.block.time`. -/
structure Env where
  block_time : Nat
deriving DecidableEq, Repr

/-- `MessageInfo`: the caller and the funds attached to the call. -/
structure MessageInfo where
  sender : HumanAddr
  sent_funds : List Coin
deriving DecidableEq, Repr

/-- Singleton config: the admin address (set by `init`). -/
structure Config where
  admin : HumanAddr
deriving DecidableEq, Repr

inductive IbcOrder where
  | Ordered
  | Unordered
deriving DecidableEq, Repr

structure IbcEndpoint where
  port_id : String
  channel_id : String
deriving DecidableEq, Repr

/-- The fields of `IbcChannel` this contract reads (the remaining fields,
counterparty endpoint and connection id, are never inspected). -/
structure IbcChannel where
  endpoint : IbcEndpoint
  order : IbcOrder
  version : String
  counterparty_version : Option String
deriving DecidableEq, Repr

/-- Success payload of a WhoAmI acknowledgement. -/
structure WhoAmIResponse where
  account : HumanAddr
deriving DecidableEq, Repr

/-- Success payload of a Balances acknowledgement. -/
structure BalancesResponse where
  account : HumanAddr
  balances : List Coin
deriving DecidableEq, Repr

/-- Acknowledgement envelope: application-level success or failure. -/
inductive AcknowledgementMsg (α : Type) where
  | Ok (res : α)
  | Err (msg : String)
deriving DecidableEq, Repr

/-- `handle_update_admin`: admin-gated replacement of the config admin. -/
def handle_update_admin (cfg : Config) (info : MessageInfo)
    (new_admin : HumanAddr) : StdResult (Config × HandleResponse) :=
  if info.sender ≠ cfg.admin then
    .error unauthorizedAdminErr
  else
    .ok ({ admin := new_admin },
      { messages := []
        attributes := [("action", "handle_update_admin"), ("new_admin", new_admin)]
        data := none })

/-- `handle_send_msgs`: admin-gated; requires the channel to be registered;
emits one `Dispatch` packet with the standard timestamp expiry. Reads but
never writes the registry. -/
def handle_send_msgs (cfg : Config) (reg : Registry) (env : Env)
    (info : MessageInfo) (channel_id : String) (msgs : List CosmosMsg) :
    StdResult HandleResponse :=
  if info.sender ≠ cfg.admin then
    .error unauthorizedSendErr
  else
    match load reg channel_id with
    | .error e => .error e
    | .ok _ =>
      .ok { messages := [IbcMsg.SendPacket channel_id (PacketMsg.Dispatch msgs)
              none (some (env.block_time + PACKET_LIFETIME))]
            attributes := [("action", "handle_send_msgs")]
            data := none }

/-- `handle_check_remote_balance`: admin-gated; requires the channel to be
registered; emits one `Balances` packet with the standard expiry. Reads but
never writes the registry. -/
def handle_check_remote_balance (cfg : Config) (reg : Registry) (env : Env)
    (info : MessageInfo) (channel_id : String) : StdResult HandleResponse :=
  if info.sender ≠ cfg.admin then
    .error unauthorizedSendErr
  else
    match load reg channel_id with
    | .error e => .error e
    | .ok _ =>
      .ok { messages := [IbcMsg.SendPacket channel_id PacketMsg.Balances
              none (some (env.block_time + PACKET_LIFETIME))]
            attributes := [("action", "handle_check_remote_balance")]
            data := none }

/-- `handle_send_funds`: intentionally no auth check; requires exactly one
attached coin, a registered channel and a known remote address, then emits
one `Transfer` on the transfer channel. Reads but never writes the
registry. -/
def handle_send_funds (reg : Registry) (env : Env) (info : MessageInfo)
    (reflect_channel_id transfer_channel_id : String) :
    StdResult HandleResponse :=
  match info.sent_funds with
  | [] => .error emptyFundsErr
  | _ :: _ :: _ => .error multipleDenominationsErr
  | [amount] =>
    match load reg reflect_channel_id with
    | .error e => .error e
    | .ok data =>
      match data.remote_addr with
      | none => .error remoteAddressUnknownErr
      | some remote_addr =>
        .ok { messages := [IbcMsg.Transfer transfer_channel_id remote_addr
                amount none (some (env.block_time + PACKET_LIFETIME))]
              attributes := [("action", "handle_send_funds")]
              data := none }

/-- `query_account` (the `AccountResponse` is a field-for-field copy of the
stored `AccountData`). Fails `NotFound` for an unregistered channel. -/
def query_account (reg : Registry) (channel_id : String) :
    StdResult AccountData :=
  load reg channel_id

/-- `ibc_channel_open`: pure handshake validation (ordering, version,
optional counterparty version); touches no state. -/
def ibc_channel_open (channel : IbcChannel) : StdResult Unit :=
  if channel.order ≠ IbcOrder.Ordered then
    .error orderMismatchErr
  else if channel.version ≠ IBC_VERSION then
    .error versionMismatchErr
  else
    match channel.counterparty_version with
    | some counter_version =>
      if counter_version ≠ IBC_VERSION then
        .error counterpartyVersionMismatchErr
      else
        .ok ()
    | none => .ok ()

/-- `ibc_channel_connect`: saves a fresh default `AccountData` under the
channel id (overwriting any prior record) and emits one `WhoAmI` packet on
that channel with the standard expiry. -/
def ibc_channel_connect (reg : Registry) (env : Env) (channel : IbcChannel) :
    StdResult (Registry × IbcBasicResponse) :=
  let channel_id := channel.endpoint.channel_id
  .ok (save reg channel_id AccountData.default,
    { messages := [IbcMsg.SendPacket channel_id PacketMsg.WhoAmI
        none (some (env.block_time + PACKET_LIFETIME))]
      attributes := [("action", "ibc_connect"), ("channel_id", channel_id)] })

/-- `ibc_channel_close`: unconditionally removes the registry entry for the
channel id; emits no packet. -/
def ibc_channel_close (reg : Registry) (channel : IbcChannel) :
    StdResult (Registry × IbcBasicResponse) :=
  let channel_id := channel.endpoint.channel_id
  .ok (remove reg channel_id,
    { messages := []
      attributes := [("action", "ibc_close"), ("channel_id", channel_id)] })

/-- `ibc_packet_receive`: never expected; acknowledges trivially, no state
change (the Rust handler never touches storage). -/
def ibc_packet_receive (reg : Registry) : StdResult (Registry × List IbcMsg) :=
  .ok (reg, [])

/-- `ibc_packet_timeout`: records an attribute only, no state change. -/
def ibc_packet_timeout (reg : Registry) :
    StdResult (Registry × IbcBasicResponse) :=
  .ok (reg, { messages := [], attributes := [("action", "ibc_packet_timeout")] })

/-- `acknowledge_dispatch`: intentional stub, no state transition. -/
def acknowledge_dispatch (reg : Registry) (_caller : String)
    (_ack : AcknowledgementMsg Unit) : StdResult (Registry × IbcBasicResponse) :=
  .ok (reg, { messages := [], attributes := [("action", "acknowledge_dispatch")] })

/-- The closure `acknowledge_who_am_i` passes to the Bucket `update`: set
`remote_addr` the first time only, error if there is no account. -/
def whoAmIAction (res : WhoAmIResponse) (acct : Option AccountData) :
    StdResult AccountData :=
  match acct with
  | some acct =>
    if acct.remote_addr.isNone then
      .ok { acct with remote_addr := some res.account }
    else
      .ok acct
  | none => .error inconsistentStateErr

/-- `acknowledge_who_am_i`: on an app-level error, record it and succeed
without touching state; on success, set `remote_addr` only if currently
unset (first-write-wins), failing if the registry entry is absent. -/
def acknowledge_who_am_i (reg : Registry) (caller : String)
    (ack : AcknowledgementMsg WhoAmIResponse) :
    StdResult (Registry × IbcBasicResponse) :=
  match ack with
  | .Err e =>
    .ok (reg, { messages := []
                attributes := [("action", "acknowledge_who_am_i"), ("error", e)] })
  | .Ok res =>
    match update reg caller (whoAmIAction res) with
    | .error e => .error e
    | .ok reg1 =>
      .ok (reg1, { messages := []
                   attributes := [("action", "acknowledge_who_am_i")] })

/-- The closure `acknowledge_balances` passes to the Bucket `update`:
reject a changed remote address, otherwise rebuild the record from the
reported account, balances and current block time; error if there is no
account. -/
def balancesAction (env : Env) (res : BalancesResponse)
    (acct : Option AccountData) : StdResult AccountData :=
  match acct with
  | some acct =>
    match acct.remote_addr with
    | some old_addr =>
      if old_addr ≠ res.account then
        .error (remoteAddressChangedErr old_addr res.account)
      else
        .ok { last_update_time := env.block_time
              remote_addr := some res.account
              remote_balance := res.balances }
    | none =>
      .ok { last_update_time := env.block_time
            remote_addr := some res.account
            remote_balance := res.balances }
  | none => .error inconsistentStateErr

/-- `acknowledge_balances`: on an app-level error, record it and succeed
without touching state; on success, fail if the registry entry is absent or
if a previously stored `remote_addr` differs from the reported account,
otherwise overwrite the whole record with the reported account, balances
and the current block time. -/
def acknowledge_balances (reg : Registry) (env : Env) (caller : String)
    (ack : AcknowledgementMsg BalancesResponse) :
    StdResult (Registry × IbcBasicResponse) :=
  match ack with
  | .Err e =>
    .ok (reg, { messages := []
                attributes := [("action", "acknowledge_balances"), ("error", e)] })
  | .Ok res =>
    match update reg caller (balancesAction env res) with
    | .error e => .error e
    | .ok reg1 =>
      .ok (reg1, { messages := []
                   attributes := [("action", "acknowledge_balances")] })

/-- An IBC channel as the test helper `mock_ibc_channel` builds it: a given
channel id, ordered, matching versions. -/
def mkChannel (channel_id : String) : IbcChannel :=
  { endpoint := { port_id := "my_port", channel_id := channel_id }
    order := IbcOrder.Ordered
    version := IBC_VERSION
    counterparty_version := some IBC_VERSION }

/-! ### Concrete fixtures used by witnesses -/

/-- The empty registry: no channel connected. -/
def emptyReg : Registry := fun _ => none

/-- A registry holding, under "chan-1", an account whose remote address is
already known to be "A". -/
def regA : Registry :=
  fun k => if k = "chan-1" then
    some { remote_addr := some "A", remote_balance := [], last_update_time := 0 }
  else none

/-- A registry holding, under "chan-1", an account whose remote address is
still unknown. -/
def regNone : Registry :=
  fun k => if k = "chan-1" then
    some { remote_addr := none, remote_balance := [], last_update_time := 0 }
  else none

/-- A concrete environment: block time 100. -/
def envW : Env := { block_time := 100 }

/-! ### Claims -/

/-- C5: `validateOpen` (`ibc_channel_open`) fails with `OrderMismatch` for
every channel whose ordering is not ordered; fails with `VersionMismatch`
for every proposed version other than "ibc-reflect" and, when a
counterparty version is present, for every counterparty version other than
"ibc-reflect" (the counterparty case carries its own message, still in the
spec's `VersionMismatch` family); succeeds for every ordered channel with
version "ibc-reflect" and absent or matching counterparty version. It is a
pure check: its type consumes no registry, so no state is mutated. -/
theorem validateOpen_spec (channel : IbcChannel) :
    (channel.order ≠ IbcOrder.Ordered →
      ibc_channel_open channel = .error orderMismatchErr) ∧
    (channel.order = IbcOrder.Ordered → channel.version ≠ IBC_VERSION →
      ibc_channel_open channel = .error versionMismatchErr) ∧
    (∀ cv, channel.order = IbcOrder.Ordered → channel.version = IBC_VERSION →
      channel.counterparty_version = some cv → cv ≠ IBC_VERSION →
      ibc_channel_open channel = .error counterpartyVersionMismatchErr) ∧
    (channel.order = IbcOrder.Ordered → channel.version = IBC_VERSION →
      (channel.counterparty_version = none ∨
        channel.counterparty_version = some IBC_VERSION) →
      ibc_channel_open channel = .ok ()) := by
  refine ⟨?_, ?_, ?_, ?_⟩
  · intro h
    simp [ibc_channel_open, h]
  · intro h1 h2
    simp [ibc_channel_open, h1, h2]
  · intro cv h1 h2 h3 h4
    simp [ibc_channel_open, h1, h2, h3, h4]
  · intro h1 h2 h3
    rcases h3 with h3 | h3 <;> simp [ibc_channel_open, h1, h2, h3]

/-- Witness for C5 at concrete channels: an ordered "ibc-reflect" channel
with matching counterparty version is accepted, an unordered one is
rejected with the order error, a wrong-version one with the version
error. -/
theorem validateOpen_spec_witness :
    ibc_channel_open (mkChannel "channel-12") = .ok () ∧
    ibc_channel_open { mkChannel "channel-12" with order := IbcOrder.Unordered } =
      .error orderMismatchErr ∧
    ibc_channel_open { mkChannel "channel-12" with version := "reflect" } =
      .error versionMismatchErr :=
  ⟨(validateOpen_spec (mkChannel "channel-12")).2.2.2 rfl rfl (Or.inr rfl),
   (validateOpen_spec _).1 (by decide),
   (validateOpen_spec { mkChannel "channel-12" with version := "reflect" }).2.1
     rfl (by decide)⟩

/-- C4: a WhoAmI or Balances acknowledgement carrying an application-level
failure payload still makes the handling invocation succeed, records the
failure only as an "error" observability attribute, and returns the
registry unchanged — for every registry, including one with no entry for
the source channel. -/
theorem ack_app_error_spec (reg : Registry) (env : Env) (caller e : String) :
    acknowledge_who_am_i reg caller (AcknowledgementMsg.Err e) =
      .ok (reg, { messages := []
                  attributes := [("action", "acknowledge_who_am_i"), ("error", e)] }) ∧
    acknowledge_balances reg env caller (AcknowledgementMsg.Err e) =
      .ok (reg, { messages := []
                  attributes := [("action", "acknowledge_balances"), ("error", e)] }) :=
  ⟨rfl, rfl⟩

/-- C6: `onConnect` stores a fresh `AccountData` (`remote_addr = none`,
`remote_balance = []`, `last_update_time = 0`) under the channel id,
overwriting any pre-existing record (the registry argument is universally
quantified, so in particular one already holding that key), leaves every
other key untouched, emits exactly one WhoAmI packet on that channel with
the 3600-second timestamp expiry, and the account query afterwards returns
the fresh record. -/
theorem connect_spec (reg : Registry) (env : Env) (channel : IbcChannel) :
    ∃ reg1 resp,
      ibc_channel_connect reg env channel = .ok (reg1, resp) ∧
      reg1 channel.endpoint.channel_id =
        some { remote_addr := none, remote_balance := [], last_update_time := 0 } ∧
      (∀ k, k ≠ channel.endpoint.channel_id → reg1 k = reg k) ∧
      resp.messages = [IbcMsg.SendPacket channel.endpoint.channel_id
        PacketMsg.WhoAmI none (some (env.block_time + 3600))] ∧
      query_account reg1 channel.endpoint.channel_id =
        .ok { remote_addr := none, remote_balance := [], last_update_time := 0 } := by
  refine ⟨save reg channel.endpoint.channel_id AccountData.default, _, rfl, ?_, ?_, rfl, ?_⟩
  · simp [save, AccountData.default]
  · intro k hk
    simp [save, hk]
  · simp [query_account, load, save, AccountData.default]

/-- Witness for C6: connecting "channel-1234" on the empty registry at
block time 100 creates the default record, leaves other keys absent, emits
the WhoAmI packet expiring at 3700, and the account query sees the fresh
record. -/
theorem connect_spec_witness :
    ∃ reg1 resp,
      ibc_channel_connect emptyReg envW (mkChannel "channel-1234") = .ok (reg1, resp) ∧
      reg1 "channel-1234" =
        some { remote_addr := none, remote_balance := [], last_update_time := 0 } ∧
      reg1 "channel-77" = none ∧
      resp.messages = [IbcMsg.SendPacket "channel-1234" PacketMsg.WhoAmI
        none (some 3700)] ∧
      query_account reg1 "channel-1234" =
        .ok { remote_addr := none, remote_balance := [], last_update_time := 0 } := by
  obtain ⟨reg1, resp, h1, h2, h3, h4, h5⟩ :=
    connect_spec emptyReg envW (mkChannel "channel-1234")
  exact ⟨reg1, resp, h1, h2,
    (h3 "channel-77" (by decide)).trans rfl, by simpa using h4, h5⟩

/-- C1: for a Balances acknowledgement with a success payload: with no
registry entry for the source channel the handler fails with
`InconsistentState`; with a stored `remote_addr` set and different from the
reported account it fails with `RemoteAddressChanged` (an errored
invocation is rolled back by the host, so the entry stays unchanged — in
this embedding an `.error` result carries no registry at all); otherwise it
succeeds and overwrites the entry with the reported account, the reported
balances and the current block time — in particular setting `remote_addr`
when it was previously unset — touching no other key. -/
theorem balances_ack_success_spec (reg : Registry) (env : Env)
    (caller : String) (res : BalancesResponse) :
    (reg caller = none →
      acknowledge_balances reg env caller (AcknowledgementMsg.Ok res) =
        .error inconsistentStateErr) ∧
    (∀ acct old_addr, reg caller = some acct →
      acct.remote_addr = some old_addr → old_addr ≠ res.account →
      acknowledge_balances reg env caller (AcknowledgementMsg.Ok res) =
        .error (remoteAddressChangedErr old_addr res.account)) ∧
    (∀ acct, reg caller = some acct →
      (acct.remote_addr = none ∨ acct.remote_addr = some res.account) →
      ∃ reg1,
        acknowledge_balances reg env caller (AcknowledgementMsg.Ok res) =
          .ok (reg1, { messages := []
                       attributes := [("action", "acknowledge_balances")] }) ∧
        reg1 caller = some { remote_addr := some res.account
                             remote_balance := res.balances
                             last_update_time := env.block_time } ∧
        (∀ k, k ≠ caller → reg1 k = reg k)) := by
  refine ⟨?_, ?_, ?_⟩
  · intro h
    simp [acknowledge_balances, balancesAction, update, h]
  · intro acct old_addr h1 h2 h3
    simp [acknowledge_balances, balancesAction, update, h1, h2, h3]
  · intro acct h1 h2
    refine ⟨save reg caller { remote_addr := some res.account
                              remote_balance := res.balances
                              last_update_time := env.block_time }, ?_, ?_, ?_⟩
    · rcases h2 with h2 | h2 <;> simp [acknowledge_balances, balancesAction, update, h1, h2]
    · simp [save]
    · intro k hk
      simp [save, hk]

/-- Witness for C1 on concrete registries: with no entry the handler fails
`InconsistentState`; with stored address "A", a success ack reporting "B"
fails `RemoteAddressChanged`; a success ack reporting "A" with one coin
succeeds and the entry now holds "A", that coin and block time 100. -/
theorem balances_ack_success_spec_witness :
    acknowledge_balances emptyReg envW "chan-1"
      (AcknowledgementMsg.Ok { account := "B", balances := [] }) =
      .error inconsistentStateErr ∧
    acknowledge_balances regA envW "chan-1"
      (AcknowledgementMsg.Ok { account := "B", balances := [] }) =
      .error (remoteAddressChangedErr "A" "B") ∧
    ∃ reg1,
      acknowledge_balances regA envW "chan-1"
        (AcknowledgementMsg.Ok { account := "A", balances := [⟨"uatom", 5⟩] }) =
        .ok (reg1, { messages := []
                     attributes := [("action", "acknowledge_balances")] }) ∧
      reg1 "chan-1" = some { remote_addr := some "A"
                             remote_balance := [⟨"uatom", 5⟩]
                             last_update_time := 100 } := by
  refine ⟨(balances_ack_success_spec emptyReg envW "chan-1" _).1 rfl, ?_, ?_⟩
  · exact (balances_ack_success_spec regA envW "chan-1" _).2.1
      { remote_addr := some "A", remote_balance := [], last_update_time := 0 }
      "A" rfl rfl (by decide)
  · obtain ⟨reg1, e1, e2, _⟩ := (balances_ack_success_spec regA envW "chan-1"
      { account := "A", balances := [⟨"uatom", 5⟩] }).2.2
      { remote_addr := some "A", remote_balance := [], last_update_time := 0 }
      rfl (Or.inr rfl)
    exact ⟨reg1, e1, e2⟩

/-- C2: for a WhoAmI acknowledgement with a success payload: with no
registry entry the handler fails with `InconsistentState`; with the stored
`remote_addr` unset it sets it to the reported address, leaving
`remote_balance` and `last_update_time` of the record and every other key
untouched; with `remote_addr` already set it leaves the whole registry
pointwise unchanged (first-write-wins); and the connect → ack(a) → ack(b)
sequence ends with `remote_addr = a` and untouched balances/timestamp. -/
theorem who_am_i_ack_success_spec (reg : Registry) (caller : String)
    (res : WhoAmIResponse) :
    (reg caller = none →
      acknowledge_who_am_i reg caller (AcknowledgementMsg.Ok res) =
        .error inconsistentStateErr) ∧
    (∀ acct, reg caller = some acct → acct.remote_addr = none →
      ∃ reg1,
        acknowledge_who_am_i reg caller (AcknowledgementMsg.Ok res) =
          .ok (reg1, { messages := []
                       attributes := [("action", "acknowledge_who_am_i")] }) ∧
        reg1 caller = some { acct with remote_addr := some res.account } ∧
        (∀ k, k ≠ caller → reg1 k = reg k)) ∧
    (∀ acct a, reg caller = some acct → acct.remote_addr = some a →
      ∃ reg1,
        acknowledge_who_am_i reg caller (AcknowledgementMsg.Ok res) =
          .ok (reg1, { messages := []
                       attributes := [("action", "acknowledge_who_am_i")] }) ∧
        (∀ k, reg1 k = reg k)) ∧
    (∀ (reg0 : Registry) (env : Env) (ch a b : String),
      (do
        let s1 ← ibc_channel_connect reg0 env (mkChannel ch)
        let s2 ← acknowledge_who_am_i s1.1 ch (AcknowledgementMsg.Ok ⟨a⟩)
        let s3 ← acknowledge_who_am_i s2.1 ch (AcknowledgementMsg.Ok ⟨b⟩)
        pure (s3.1 ch) : StdResult (Option AccountData)) =
      .ok (some { remote_addr := some a
                  remote_balance := []
                  last_update_time := 0 })) := by
  refine ⟨?_, ?_, ?_, ?_⟩
  · intro h
    simp [acknowledge_who_am_i, whoAmIAction, update, h]
  · intro acct h1 h2
    refine ⟨save reg caller { acct with remote_addr := some res.account }, ?_, ?_, ?_⟩
    · simp [acknowledge_who_am_i, whoAmIAction, update, h1, h2]
    · simp [save]
    · intro k hk
      simp [save, hk]
  · intro acct a h1 h2
    refine ⟨save reg caller acct, ?_, ?_⟩
    · simp [acknowledge_who_am_i, whoAmIAction, update, h1, h2]
    · intro k
      by_cases hk : k = caller
      · subst hk
        simp [save, h1]
      · simp [save, hk]
  · intro reg0 env ch a b
    simp [ibc_channel_connect, acknowledge_who_am_i, whoAmIAction, update,
      save, load, AccountData.default, mkChannel, bind, Except.bind,
      Functor.map, Except.map, pure, Except.pure]

/-- Witness for C2: on concrete registries, a success ack on the empty
registry fails `InconsistentState`; on an entry with unset address it sets
"A"; on an entry already holding "A" a later ack reporting "B" leaves "A";
and the concrete connect → ack "A" → ack "B" run ends with address "A". -/
theorem who_am_i_ack_success_spec_witness :
    acknowledge_who_am_i emptyReg "chan-1"
      (AcknowledgementMsg.Ok { account := "A" }) = .error inconsistentStateErr ∧
    (∃ reg1,
      acknowledge_who_am_i regNone "chan-1"
        (AcknowledgementMsg.Ok { account := "A" }) =
        .ok (reg1, { messages := []
                     attributes := [("action", "acknowledge_who_am_i")] }) ∧
      reg1 "chan-1" = some { remote_addr := some "A"
                             remote_balance := []
                             last_update_time := 0 }) ∧
    (∃ reg1,
      acknowledge_who_am_i regA "chan-1"
        (AcknowledgementMsg.Ok { account := "B" }) =
        .ok (reg1, { messages := []
                     attributes := [("action", "acknowledge_who_am_i")] }) ∧
      reg1 "chan-1" = some { remote_addr := some "A"
                             remote_balance := []
                             last_update_time := 0 }) ∧
    (do
      let s1 ← ibc_channel_connect emptyReg envW (mkChannel "channel-1234")
      let s2 ← acknowledge_who_am_i s1.1 "channel-1234" (AcknowledgementMsg.Ok ⟨"A"⟩)
      let s3 ← acknowledge_who_am_i s2.1 "channel-1234" (AcknowledgementMsg.Ok ⟨"B"⟩)
      pure (s3.1 "channel-1234") : StdResult (Option AccountData)) =
    .ok (some { remote_addr := some "A"
                remote_balance := []
                last_update_time := 0 }) := by
  refine ⟨(who_am_i_ack_success_spec emptyReg "chan-1" _).1 rfl, ?_, ?_, ?_⟩
  · obtain ⟨reg1, e1, e2, _⟩ := (who_am_i_ack_success_spec regNone "chan-1"
      { account := "A" }).2.1
      { remote_addr := none, remote_balance := [], last_update_time := 0 } rfl rfl
    exact ⟨reg1, e1, e2⟩
  · obtain ⟨reg1, e1, e2⟩ := (who_am_i_ack_success_spec regA "chan-1"
      { account := "B" }).2.2.1
      { remote_addr := some "A", remote_balance := [], last_update_time := 0 }
      "A" rfl rfl
    exact ⟨reg1, e1, (e2 "chan-1").trans (by decide)⟩
  · exact (who_am_i_ack_success_spec emptyReg "x" ⟨"y"⟩).2.2.2
      emptyReg envW "channel-1234" "A" "B"

/-- C3: `sendFunds` performs no authorization check (the result never
depends on the sender); it fails `EmptyFunds` on empty attached funds,
`MultipleDenominations` on more than one attached coin, `NotFound` when the
reflect channel is not in the registry, `RemoteAddressUnknown` when the
registered account has no remote address; otherwise it succeeds, emitting
exactly one `Transfer` message on the transfer channel to the stored remote
address carrying the single attached coin with the 3600-second timestamp
expiry. -/
theorem send_funds_spec (reg : Registry) (env : Env) (sender : HumanAddr)
    (funds : List Coin) (rch tch : String) :
    (∀ other : HumanAddr,
      handle_send_funds reg env { sender := sender, sent_funds := funds } rch tch =
      handle_send_funds reg env { sender := other, sent_funds := funds } rch tch) ∧
    (funds = [] →
      handle_send_funds reg env { sender := sender, sent_funds := funds } rch tch =
        .error emptyFundsErr) ∧
    (2 ≤ funds.length →
      handle_send_funds reg env { sender := sender, sent_funds := funds } rch tch =
        .error multipleDenominationsErr) ∧
    (∀ c, funds = [c] → reg rch = none →
      handle_send_funds reg env { sender := sender, sent_funds := funds } rch tch =
        .error notFoundErr) ∧
    (∀ c acct, funds = [c] → reg rch = some acct → acct.remote_addr = none →
      handle_send_funds reg env { sender := sender, sent_funds := funds } rch tch =
        .error remoteAddressUnknownErr) ∧
    (∀ c acct addr, funds = [c] → reg rch = some acct →
      acct.remote_addr = some addr →
      handle_send_funds reg env { sender := sender, sent_funds := funds } rch tch =
        .ok { messages := [IbcMsg.Transfer tch addr c
                none (some (env.block_time + 3600))]
              attributes := [("action", "handle_send_funds")]
              data := none }) := by
  refine ⟨?_, ?_, ?_, ?_, ?_, ?_⟩
  · intro other
    rfl
  · intro h
    subst h
    rfl
  · intro h
    match funds, h with
    | c1 :: c2 :: rest, _ => rfl
  · intro c h1 h2
    subst h1
    simp [handle_send_funds, load, h2, notFoundErr]
  · intro c acct h1 h2 h3
    subst h1
    simp [handle_send_funds, load, h2, h3]
  · intro c acct addr h1 h2 h3
    subst h1
    simp [handle_send_funds, load, h2, h3, PACKET_LIFETIME]

/-- Witness for C3 at concrete inputs: empty funds fail `EmptyFunds`; two
coins of distinct denominations fail `MultipleDenominations`; one coin on
an unregistered channel fails `NotFound`; one coin on a registered channel
without a remote address fails `RemoteAddressUnknown`; one coin on a
channel whose remote address is "A" emits exactly the transfer to "A". -/
theorem send_funds_spec_witness :
    handle_send_funds emptyReg envW { sender := "anyone", sent_funds := [] }
      "chan-1" "transfer-2" = .error emptyFundsErr ∧
    handle_send_funds emptyReg envW
      { sender := "anyone", sent_funds := [⟨"uatom", 1⟩, ⟨"ustar", 2⟩] }
      "chan-1" "transfer-2" = .error multipleDenominationsErr ∧
    handle_send_funds emptyReg envW
      { sender := "anyone", sent_funds := [⟨"uatom", 1⟩] }
      "chan-1" "transfer-2" = .error notFoundErr ∧
    handle_send_funds regNone envW
      { sender := "anyone", sent_funds := [⟨"uatom", 1⟩] }
      "chan-1" "transfer-2" = .error remoteAddressUnknownErr ∧
    handle_send_funds regA envW
      { sender := "anyone", sent_funds := [⟨"uatom", 1⟩] }
      "chan-1" "transfer-2" =
      .ok { messages := [IbcMsg.Transfer "transfer-2" "A" ⟨"uatom", 1⟩
              none (some 3700)]
            attributes := [("action", "handle_send_funds")]
            data := none } := by
  refine ⟨?_, ?_, ?_, ?_, ?_⟩
  · exact (send_funds_spec emptyReg envW "anyone" [] "chan-1" "transfer-2").2.1 rfl
  · exact (send_funds_spec emptyReg envW "anyone" [⟨"uatom", 1⟩, ⟨"ustar", 2⟩]
      "chan-1" "transfer-2").2.2.1 (by decide)
  · exact (send_funds_spec emptyReg envW "anyone" [⟨"uatom", 1⟩]
      "chan-1" "transfer-2").2.2.2.1 ⟨"uatom", 1⟩ rfl rfl
  · exact (send_funds_spec regNone envW "anyone" [⟨"uatom", 1⟩]
      "chan-1" "transfer-2").2.2.2.2.1 ⟨"uatom", 1⟩
      { remote_addr := none, remote_balance := [], last_update_time := 0 } rfl rfl rfl
  · exact (send_funds_spec regA envW "anyone" [⟨"uatom", 1⟩]
      "chan-1" "transfer-2").2.2.2.2.2 ⟨"uatom", 1⟩
      { remote_addr := some "A", remote_balance := [], last_update_time := 0 }
      "A" rfl rfl rfl

/-- C10: in `sendFunds` the attached-funds validation precedes the registry
lookup: for every registry — so in particular for a reflect channel absent
from it — empty funds fail with `EmptyFunds` and two or more coins, of any
denominations, fail with `MultipleDenominations`, taking precedence over
`NotFound`. -/
theorem send_funds_validation_first_spec (reg : Registry) (env : Env)
    (sender : HumanAddr) (rch tch : String) :
    (handle_send_funds reg env { sender := sender, sent_funds := [] } rch tch =
      .error emptyFundsErr) ∧
    (∀ funds : List Coin, 2 ≤ funds.length →
      handle_send_funds reg env { sender := sender, sent_funds := funds } rch tch =
        .error multipleDenominationsErr) := by
  refine ⟨rfl, ?_⟩
  intro funds h
  match funds, h with
  | c1 :: c2 :: rest, _ => rfl

/-- Witness for C10 on the empty registry (channel "never-connected" is
absent): empty funds fail `EmptyFunds`, and two coins of the same
denomination fail `MultipleDenominations`, not `NotFound`. -/
theorem send_funds_validation_first_spec_witness :
    handle_send_funds emptyReg envW { sender := "anyone", sent_funds := [] }
      "never-connected" "transfer-2" = .error emptyFundsErr ∧
    handle_send_funds emptyReg envW
      { sender := "anyone", sent_funds := [⟨"uatom", 1⟩, ⟨"uatom", 2⟩] }
      "never-connected" "transfer-2" = .error multipleDenominationsErr ∧
    emptyReg "never-connected" = none ∧
    multipleDenominationsErr ≠ notFoundErr ∧
    emptyFundsErr ≠ notFoundErr := by
  refine ⟨(send_funds_validation_first_spec emptyReg envW "anyone"
      "never-connected" "transfer-2").1,
    (send_funds_validation_first_spec emptyReg envW "anyone"
      "never-connected" "transfer-2").2 [⟨"uatom", 1⟩, ⟨"uatom", 2⟩] (by decide),
    rfl, by decide, by decide⟩

/-- C7 counterexample: the claim says the three commands fail with
`NotFound` on a never-connected channel "regardless of the caller and
arguments". Concretely, with admin "creator", a non-admin caller "mallory"
invoking `send_msgs` or `check_remote_balance` on the absent
"channel-99" fails with the authorization error, and `send_funds` with no
attached coin fails with `EmptyFunds` — none of which is `NotFound`. -/
theorem notfound_unregistered_cx :
    emptyReg "channel-99" = none ∧
    handle_send_msgs { admin := "creator" } emptyReg envW
      { sender := "mallory", sent_funds := [] } "channel-99" [] =
      .error unauthorizedSendErr ∧
    handle_check_remote_balance { admin := "creator" } emptyReg envW
      { sender := "mallory", sent_funds := [] } "channel-99" =
      .error unauthorizedSendErr ∧
    handle_send_funds emptyReg envW
      { sender := "mallory", sent_funds := [] } "channel-99" "transfer-2" =
      .error emptyFundsErr ∧
    unauthorizedSendErr ≠ notFoundErr ∧
    emptyFundsErr ≠ notFoundErr := by
  refine ⟨rfl, ?_, ?_, rfl, by decide, by decide⟩
  · simp [handle_send_msgs, unauthorizedSendErr]
  · simp [handle_check_remote_balance, unauthorizedSendErr]

/-- C7 (amended): for every channel_id absent from the registry,
`send_msgs` and `check_remote_balance` fail with `NotFound` whenever the
caller is the admin (a non-admin caller is rejected by the earlier
authorization check), and `send_funds` fails with `NotFound` whenever
exactly one coin is attached (no or several attached coins are rejected by
the earlier funds validation), regardless of caller and of the remaining
arguments. -/
theorem notfound_unregistered_spec (cfg : Config) (reg : Registry) (env : Env)
    (ch tch : String) (sender : HumanAddr) (funds : List Coin)
    (msgs : List CosmosMsg) (c : Coin) (h : reg ch = none) :
    handle_send_msgs cfg reg env { sender := cfg.admin, sent_funds := funds }
      ch msgs = .error notFoundErr ∧
    handle_check_remote_balance cfg reg env
      { sender := cfg.admin, sent_funds := funds } ch = .error notFoundErr ∧
    handle_send_funds reg env { sender := sender, sent_funds := [c] } ch tch =
      .error notFoundErr := by
  refine ⟨?_, ?_, ?_⟩
  · simp [handle_send_msgs, load, h, notFoundErr]
  · simp [handle_check_remote_balance, load, h, notFoundErr]
  · simp [handle_send_funds, load, h, notFoundErr]

/-- Witness for amended C7: on the empty registry with admin "creator",
the admin's `send_msgs` and `check_remote_balance` on "channel-99" and
anyone's one-coin `send_funds` on it all fail `NotFound`. -/
theorem notfound_unregistered_spec_witness :
    handle_send_msgs { admin := "creator" } emptyReg envW
      { sender := "creator", sent_funds := [] } "channel-99" [] =
      .error notFoundErr ∧
    handle_check_remote_balance { admin := "creator" } emptyReg envW
      { sender := "creator", sent_funds := [] } "channel-99" =
      .error notFoundErr ∧
    handle_send_funds emptyReg envW
      { sender := "mallory", sent_funds := [⟨"uatom", 1⟩] } "channel-99"
      "transfer-2" = .error notFoundErr :=
  notfound_unregistered_spec { admin := "creator" } emptyReg envW
    "channel-99" "transfer-2" "mallory" [] [] ⟨"uatom", 1⟩ rfl

/-- If a Bucket `update` whose action rejects an absent value succeeds,
the set of present keys is unchanged. -/
theorem update_domain (reg : Registry) (k : String)
    (action : Option AccountData → StdResult AccountData) (reg1 : Registry)
    (e0 : StdError) (hnone : action none = .error e0)
    (h : update reg k action = .ok reg1) (x : String) :
    (reg1 x).isSome = (reg x).isSome := by
  unfold update at h
  rcases hc : reg k with _ | acct
  · rw [hc, hnone] at h
    cases h
  · rw [hc] at h
    rcases ha : action (some acct) with e | v
    · rw [ha] at h
      cases h
    · rw [ha] at h
      cases h
      by_cases hx : x = k
      · subst hx
        simp [save, hc]
      · simp [save, hx]

/-- C8: registry lifecycle. `onClose` unconditionally deletes the record
for its channel id, touches no other key and emits no packet, and the
account query afterwards fails `NotFound`; `onConnect` creates the record
for its channel id and touches no other key; a successful WhoAmI or
Balances acknowledgement never creates or destroys an entry (the present
keys are unchanged; a failure payload returns the registry itself, per the
C4 theorem); the Dispatch acknowledgement, packet-receive and
packet-timeout handlers return the registry unchanged. The dispatch
commands and queries consume the registry read-only by their very type. -/
theorem registry_lifecycle_spec (reg : Registry) (env : Env)
    (channel : IbcChannel) (caller : String)
    (ackW : AcknowledgementMsg WhoAmIResponse)
    (ackB : AcknowledgementMsg BalancesResponse)
    (ackD : AcknowledgementMsg Unit) :
    (∃ reg1 resp, ibc_channel_close reg channel = .ok (reg1, resp) ∧
      reg1 channel.endpoint.channel_id = none ∧
      (∀ k, k ≠ channel.endpoint.channel_id → reg1 k = reg k) ∧
      resp.messages = [] ∧
      query_account reg1 channel.endpoint.channel_id = .error notFoundErr) ∧
    (∀ reg1 resp, ibc_channel_connect reg env channel = .ok (reg1, resp) →
      (reg1 channel.endpoint.channel_id).isSome = true ∧
      (∀ k, k ≠ channel.endpoint.channel_id → reg1 k = reg k)) ∧
    (∀ reg1 resp, acknowledge_who_am_i reg caller ackW = .ok (reg1, resp) →
      ∀ k, (reg1 k).isSome = (reg k).isSome) ∧
    (∀ reg1 resp, acknowledge_balances reg env caller ackB = .ok (reg1, resp) →
      ∀ k, (reg1 k).isSome = (reg k).isSome) ∧
    (∀ reg1 resp, acknowledge_dispatch reg caller ackD = .ok (reg1, resp) →
      reg1 = reg) ∧
    (∀ reg1 msgs, ibc_packet_receive reg = .ok (reg1, msgs) → reg1 = reg) ∧
    (∀ reg1 resp, ibc_packet_timeout reg = .ok (reg1, resp) → reg1 = reg) := by
  refine ⟨?_, ?_, ?_, ?_, ?_, ?_, ?_⟩
  · refine ⟨remove reg channel.endpoint.channel_id, _, rfl, ?_, ?_, rfl, ?_⟩
    · simp [remove]
    · intro k hk
      simp [remove, hk]
    · simp [query_account, load, remove, notFoundErr]
  · intro reg1 resp h
    rw [ibc_channel_connect] at h
    cases h
    constructor
    · simp [save]
    · intro k hk
      simp [save, hk]
  · intro reg1 resp h k
    cases ackW with
    | Err e =>
      rw [acknowledge_who_am_i] at h
      cases h
      rfl
    | Ok res =>
      rcases hu : update reg caller (whoAmIAction res) with e | r1
      · rw [acknowledge_who_am_i, hu] at h
        cases h
      · rw [acknowledge_who_am_i, hu] at h
        cases h
        exact update_domain reg caller (whoAmIAction res) reg1
          inconsistentStateErr rfl hu k
  · intro reg1 resp h k
    cases ackB with
    | Err e =>
      rw [acknowledge_balances] at h
      cases h
      rfl
    | Ok res =>
      rcases hu : update reg caller (balancesAction env res) with e | r1
      · rw [acknowledge_balances, hu] at h
        cases h
      · rw [acknowledge_balances, hu] at h
        cases h
        exact update_domain reg caller (balancesAction env res) reg1
          inconsistentStateErr rfl hu k
  · intro reg1 resp h
    cases h
    rfl
  · intro reg1 msgs h
    cases h
    rfl
  · intro reg1 resp h
    cases h
    rfl

/-- Witness for C8: closing "channel-1234" on a registry that holds it
(the one `connect` produced) removes exactly that entry, emits no message,
and the account query then fails `NotFound`. -/
theorem registry_lifecycle_spec_witness :
    ∃ reg1 resp,
      ibc_channel_close (save emptyReg "channel-1234" AccountData.default)
        (mkChannel "channel-1234") = .ok (reg1, resp) ∧
      reg1 "channel-1234" = none ∧
      resp.messages = [] ∧
      query_account reg1 "channel-1234" = .error notFoundErr := by
  obtain ⟨⟨reg1, resp, h1, h2, _, h4, h5⟩, _⟩ :=
    registry_lifecycle_spec (save emptyReg "channel-1234" AccountData.default)
      envW (mkChannel "channel-1234") "channel-1234"
      (AcknowledgementMsg.Err "e") (AcknowledgementMsg.Err "e")
      (AcknowledgementMsg.Err "e")
  exact ⟨reg1, resp, h1, h2, h4, h5⟩

/-- Standard packet expiry: no block-height timeout, and a timestamp
timeout of exactly the block time plus 3600 seconds. -/
def standardExpiry (env : Env) (m : IbcMsg) : Bool :=
  match m with
  | .SendPacket _ _ tb tt =>
    tb == none && tt == some (env.block_time + 3600)
  | .Transfer _ _ _ tb tt =>
    tb == none && tt == some (env.block_time + 3600)

/-- C9: `PACKET_LIFETIME` is 3600 seconds, and every message emitted by a
successful `send_msgs`, `check_remote_balance`, `send_funds` or
`onConnect` (the WhoAmI packet) carries a timestamp timeout of exactly the
current block time plus 3600 seconds and no block-height timeout. -/
theorem standard_expiry_spec (cfg : Config) (reg : Registry) (env : Env)
    (info : MessageInfo) (ch tch : String) (msgs : List CosmosMsg)
    (channel : IbcChannel) :
    PACKET_LIFETIME = 3600 ∧
    (∀ resp, handle_send_msgs cfg reg env info ch msgs = .ok resp →
      ∀ m ∈ resp.messages, standardExpiry env m = true) ∧
    (∀ resp, handle_check_remote_balance cfg reg env info ch = .ok resp →
      ∀ m ∈ resp.messages, standardExpiry env m = true) ∧
    (∀ resp, handle_send_funds reg env info ch tch = .ok resp →
      ∀ m ∈ resp.messages, standardExpiry env m = true) ∧
    (∀ st resp, ibc_channel_connect reg env channel = .ok (st, resp) →
      ∀ m ∈ resp.messages, standardExpiry env m = true) := by
  refine ⟨rfl, ?_, ?_, ?_, ?_⟩
  · intro resp h m hm
    rw [handle_send_msgs] at h
    split at h
    · cases h
    · split at h
      · cases h
      · cases h
        simp only [List.mem_singleton] at hm
        subst hm
        simp [standardExpiry, PACKET_LIFETIME]
  · intro resp h m hm
    rw [handle_check_remote_balance] at h
    split at h
    · cases h
    · split at h
      · cases h
      · cases h
        simp only [List.mem_singleton] at hm
        subst hm
        simp [standardExpiry, PACKET_LIFETIME]
  · intro resp h m hm
    rw [handle_send_funds] at h
    split at h
    · cases h
    · cases h
    · split at h
      · cases h
      · split at h
        · cases h
        · cases h
          simp only [List.mem_singleton] at hm
          subst hm
          simp [standardExpiry, PACKET_LIFETIME]
  · intro st resp h m hm
    rw [ibc_channel_connect] at h
    cases h
    simp only [List.mem_singleton] at hm
    subst hm
    simp [standardExpiry, PACKET_LIFETIME]

/-- Witness for C9: the concrete packets emitted at block time 100 by the
admin's `send_msgs` on a registered channel and by `connect` all satisfy
the standard-expiry predicate. -/
theorem standard_expiry_spec_witness :
    handle_send_msgs { admin := "creator" } regA envW
      { sender := "creator", sent_funds := [] } "chan-1" ["m1"] =
      .ok { messages := [IbcMsg.SendPacket "chan-1"
              (PacketMsg.Dispatch ["m1"]) none (some 3700)]
            attributes := [("action", "handle_send_msgs")]
            data := none } ∧
    standardExpiry envW (IbcMsg.SendPacket "chan-1"
      (PacketMsg.Dispatch ["m1"]) none (some 3700)) = true := by
  have h1 : handle_send_msgs { admin := "creator" } regA envW
      { sender := "creator", sent_funds := [] } "chan-1" ["m1"] =
      .ok { messages := [IbcMsg.SendPacket "chan-1"
              (PacketMsg.Dispatch ["m1"]) none (some 3700)]
            attributes := [("action", "handle_send_msgs")]
            data := none } := by
    simp [handle_send_msgs, load, regA, PACKET_LIFETIME, envW]
  refine ⟨h1, ?_⟩
  exact (standard_expiry_spec { admin := "creator" } regA envW
    { sender := "creator", sent_funds := [] } "chan-1" "t" ["m1"]
    (mkChannel "chan-1")).2.1 _ h1 _ (by simp)

end IbcReflectSend
